import Mathlib

/-!
Verification development for `scripts/daily-update.py` of the
health-dashboard repository.

The script parses a free-form daily markdown log into meals, macro
totals and workouts, merges the result with fitness-tracker metrics
into a dated record, appends it to a JSON dataset sorted by date, and
triggers a build/deploy step.

The embedding below works over `List Char`.  Each Python regular
expression used by the script is translated into a dedicated
backtracking matcher built from small combinators that reproduce the
semantics of the Python `re` module for the constructs that actually
occur in those patterns: greedy and lazy repetition of character
classes, lazy repetition of the dot, optional characters, ordered
alternation, and leftmost search.  Numeric conversion helpers mirror
`int(...)` and `int(float(...))` on the strings that the captured
groups can denote.
-/

/-- Python `\s` restricted to the ASCII whitespace characters that occur in
the logs (space, tab, newline, carriage return, vertical tab, form feed). -/
def pySpace (c : Char) : Bool :=
  c = ' ' || c = '\t' || c = '\n' || c = '\r' || c = '\x0b' || c = '\x0c'

/-- Python `\d` on ASCII digits. -/
def pyDigit (c : Char) : Bool :=
  c.isDigit

/-- Python `\w` on ASCII: letters, digits and underscore. -/
def pyWord (c : Char) : Bool :=
  c.isAlphanum || c = '_'

/-- Python `str.strip()`: drop whitespace from both ends. -/
def pyStrip (s : List Char) : List Char :=
  ((s.dropWhile pySpace).reverse.dropWhile pySpace).reverse

/-- Try alternatives in order, returning the first success: the backbone of
regex backtracking. -/
def firstSome : List α → (α → Option β) → Option β
  | [], _ => none
  | x :: xs, f =>
    match f x with
    | some b => some b
    | none => firstSome xs f

/-- All suffixes reachable by consuming characters of class `p` from the
front, in order of 0, 1, 2, ... characters consumed. -/
def classSuffixes (p : Char → Bool) : List Char → List (List Char)
  | [] => [[]]
  | c :: cs => (c :: cs) :: (if p c then classSuffixes p cs else [])

/-- All `(consumed, remaining)` splits obtained by consuming characters of
class `p` from the front, in order of 0, 1, 2, ... characters consumed. -/
def splitsWhile (p : Char → Bool) : List Char → List (List Char × List Char)
  | [] => [([], [])]
  | c :: cs =>
    ([], c :: cs) ::
      (if p c then (splitsWhile p cs).map (fun pr => (c :: pr.1, pr.2)) else [])

/-- Greedy `p*`: hand the continuation the suffixes longest-consumed first. -/
def gstar (p : Char → Bool) (s : List Char) (k : List Char → Option α) : Option α :=
  firstSome (classSuffixes p s).reverse k

/-- Lazy `p*?`: hand the continuation the suffixes shortest-consumed first. -/
def lstar (p : Char → Bool) (s : List Char) (k : List Char → Option α) : Option α :=
  firstSome (classSuffixes p s) k

/-- Greedy `p+`: one mandatory character, then greedy star. -/
def gplus (p : Char → Bool) (s : List Char) (k : List Char → Option α) : Option α :=
  match s with
  | [] => none
  | c :: cs => if p c then gstar p cs k else none

/-- Greedy capturing `(p+)`: pass the captured run and the rest, longest run
first. -/
def gplusCap (p : Char → Bool) (s : List Char)
    (k : List Char → List Char → Option α) : Option α :=
  firstSome (splitsWhile p s).reverse
    (fun pr => if pr.1.isEmpty then none else k pr.1 pr.2)

/-- Lazy capturing `(p+?)`: shortest non-empty run first. -/
def lplusCap (p : Char → Bool) (s : List Char)
    (k : List Char → List Char → Option α) : Option α :=
  firstSome (splitsWhile p s)
    (fun pr => if pr.1.isEmpty then none else k pr.1 pr.2)

/-- Lazy capturing `(p*?)`: shortest run first, empty allowed. -/
def lstarCap (p : Char → Bool) (s : List Char)
    (k : List Char → List Char → Option α) : Option α :=
  firstSome (splitsWhile p s) (fun pr => k pr.1 pr.2)

/-- Match a literal character sequence, case-sensitively. -/
def eatStr : List Char → List Char → Option (List Char)
  | [], s => some s
  | _ :: _, [] => none
  | c :: cs, x :: xs => if x = c then eatStr cs xs else none

/-- Match a literal character sequence up to ASCII case (the patterns
compiled with `re.IGNORECASE`). -/
def eatStrCI : List Char → List Char → Option (List Char)
  | [], s => some s
  | _ :: _, [] => none
  | c :: cs, x :: xs => if x.toLower = c.toLower then eatStrCI cs xs else none

/-- Greedy optional character `c?`: try consuming it first, then not. -/
def optChar (c : Char) (s : List Char) (k : List Char → Option α) : Option α :=
  match s with
  | [] => k []
  | x :: xs =>
    if x = c then
      match k xs with
      | some r => some r
      | none => k (x :: xs)
    else k (x :: xs)

/-- `re.search`: try the anchored matcher at each start position from the
left, returning the leftmost success. -/
def searchFrom (m : List Char → Option α) : List Char → Option α
  | [] => m []
  | c :: cs =>
    match m (c :: cs) with
    | some r => some r
    | none => searchFrom m cs

/-- The span between two suffixes of the same string: the characters the
match consumed between the two positions (used to read off a capture that
covers several sub-patterns). -/
def spanTo (s0 s1 : List Char) : List Char :=
  s0.take (s0.length - s1.length)

/-- Python `str.split('\n')`. -/
def splitNl : List Char → List (List Char)
  | [] => [[]]
  | '\n' :: rest => [] :: splitNl rest
  | c :: rest =>
    match splitNl rest with
    | l :: ls => (c :: l) :: ls
    | [] => [[c]]

/-- Numeric value of a digit string.  The groups the script converts with
`int(...)` consist of digits (after the script strips commas); on an empty
or non-digit string Python would raise, which no claim exercises, and this
model returns the value of the digit characters read in base 10. -/
def natOfDigits (s : List Char) : Nat :=
  s.foldl (fun n c => 10 * n + (c.toNat - 48)) 0

/-- `int(g.replace(",", ""))` applied to a group matched by `[\d,]+`. -/
def calNum (g : List Char) : Nat :=
  natOfDigits (g.filter (fun c => c != ','))

/-- `int(float(g))` applied to a group matched by `[\d.]+`: Python parses
the decimal literal and `int` truncates toward zero, which on these
strings is the value of the digits before the first dot. -/
def gramNum (g : List Char) : Nat :=
  natOfDigits (g.takeWhile (fun c => c != '.'))

/-- Anchored matcher for the totals-line pattern
`\*\*(?:Daily totals|Running total)[^*]*\*\*[:\s]*~?([\d,]+)\s*cal.*?~?([\d.]+)g\s*protein`
compiled with `re.IGNORECASE` (the dot does not cross newlines; `[^*]`
does).  Returns the two captured groups (calories, protein). -/
def totalsMatchAt (s : List Char) : Option (List Char × List Char) :=
  match eatStr ['*', '*'] s with
  | none => none
  | some s1 =>
    let afterLabel :=
      match eatStrCI "daily totals".data s1 with
      | some r => some r
      | none => eatStrCI "running total".data s1
    match afterLabel with
    | none => none
    | some s2 =>
      gstar (fun c => c != '*') s2 fun s3 =>
      match eatStr ['*', '*'] s3 with
      | none => none
      | some s4 =>
      gstar (fun c => c = ':' || pySpace c) s4 fun s5 =>
      optChar '~' s5 fun s6 =>
      gplusCap (fun c => pyDigit c || c = ',') s6 fun g1 s7 =>
      gstar pySpace s7 fun s8 =>
      match eatStrCI "cal".data s8 with
      | none => none
      | some s9 =>
      lstar (fun c => c != '\n') s9 fun s10 =>
      optChar '~' s10 fun s11 =>
      gplusCap (fun c => pyDigit c || c = '.') s11 fun g2 s12 =>
      match eatStrCI ['g'] s12 with
      | none => none
      | some s13 =>
      gstar pySpace s13 fun s14 =>
      (eatStrCI "protein".data s14).map fun _ => (g1, g2)

/-- `re.search` of the totals-line pattern over the whole document. -/
def totals_match (content : List Char) : Option (List Char × List Char) :=
  searchFrom totalsMatchAt content

/-- Anchored matcher for
`\*\*(?:Daily totals|Running total)[^*]*\*\*.*?~?([\d.]+)g\s*WORD`
with `re.IGNORECASE`, shared by the fat and carbs searches. -/
def gramAfterLabelAt (word : List Char) (s : List Char) : Option (List Char) :=
  match eatStr ['*', '*'] s with
  | none => none
  | some s1 =>
    let afterLabel :=
      match eatStrCI "daily totals".data s1 with
      | some r => some r
      | none => eatStrCI "running total".data s1
    match afterLabel with
    | none => none
    | some s2 =>
      gstar (fun c => c != '*') s2 fun s3 =>
      match eatStr ['*', '*'] s3 with
      | none => none
      | some s4 =>
      lstar (fun c => c != '\n') s4 fun s5 =>
      optChar '~' s5 fun s6 =>
      gplusCap (fun c => pyDigit c || c = '.') s6 fun g s7 =>
      match eatStrCI ['g'] s7 with
      | none => none
      | some s8 =>
      gstar pySpace s8 fun s9 =>
      (eatStrCI word s9).map fun _ => g

/-- `re.search` for the fat figure on the totals line. -/
def fat_match (content : List Char) : Option (List Char) :=
  searchFrom (gramAfterLabelAt "fat".data) content

/-- `re.search` for the carbs figure on the totals line. -/
def carbs_match (content : List Char) : Option (List Char) :=
  searchFrom (gramAfterLabelAt "carb".data) content

/-- The optional `(?:AM|PM|am|pm)?` token: try the four alternatives in
order, then the empty match. -/
def ampmOpt (s : List Char) (k : List Char → Option α) : Option α :=
  firstSome
    [eatStr ['A', 'M'] s, eatStr ['P', 'M'] s, eatStr ['a', 'm'] s,
      eatStr ['p', 'm'] s, some s]
    (fun o =>
      match o with
      | some r => k r
      | none => none)

/-- `re.match` of `.*?\(~?([\d:]+\s*(?:AM|PM|am|pm)?)\)` against a section:
the parenthesized clock time embedded in a section header.  Returns the
captured group. -/
def time_match (s : List Char) : Option (List Char) :=
  lstar (fun c => c != '\n') s fun s1 =>
  match eatStr ['('] s1 with
  | none => none
  | some s2 =>
  optChar '~' s2 fun s3 =>
  gplusCap (fun c => pyDigit c || c = ':') s3 fun _ s4 =>
  gstar pySpace s4 fun s5 =>
  ampmOpt s5 fun s6 =>
  match eatStr [')'] s6 with
  | none => none
  | some _ => some (spanTo s3 s6)

/-- `re.match` of `(\w[\w\s&]*)` against a section: its leading
word-sequence (the greedy class may cross newlines). -/
def section_name_match (s : List Char) : Option (List Char) :=
  match s with
  | [] => none
  | c :: rest =>
    if pyWord c then
      some (c :: rest.takeWhile (fun d => pyWord d || pySpace d || d = '&'))
    else none

/-- `re.match` of `\s*-\s+\*\*(.+?)\*\*` against a line: a dash-bullet with
a bolded item name.  Returns the raw captured name. -/
def item_match (line : List Char) : Option (List Char) :=
  gstar pySpace line fun s1 =>
  match eatStr ['-'] s1 with
  | none => none
  | some s2 =>
  gplus pySpace s2 fun s3 =>
  match eatStr ['*', '*'] s3 with
  | none => none
  | some s4 =>
  lplusCap (fun c => c != '\n') s4 fun g s5 =>
  match eatStr ['*', '*'] s5 with
  | none => none
  | some _ => some g

/-- Anchored matcher for `[—\-]+\s*~?([\d,]+)\s*cal` (case-sensitive). -/
def calOnLineAt (s : List Char) : Option (List Char) :=
  gplus (fun c => c = '—' || c = '-') s fun s1 =>
  gstar pySpace s1 fun s2 =>
  optChar '~' s2 fun s3 =>
  gplusCap (fun c => pyDigit c || c = ',') s3 fun g s4 =>
  gstar pySpace s4 fun s5 =>
  (eatStr ['c', 'a', 'l'] s5).map fun _ => g

/-- `re.search` for an inline calorie figure on a bullet line (Format 1). -/
def cal_on_line (line : List Char) : Option (List Char) :=
  searchFrom calOnLineAt line

/-- `re.match` of `\s+-\s+~?([\d,]+)\s*cal` against the following line: a
nested sub-bullet beginning with a calorie figure (Format 2). -/
def sub_cal (line : List Char) : Option (List Char) :=
  gplus pySpace line fun s1 =>
  match eatStr ['-'] s1 with
  | none => none
  | some s2 =>
  gplus pySpace s2 fun s3 =>
  optChar '~' s3 fun s4 =>
  gplusCap (fun c => pyDigit c || c = ',') s4 fun g s5 =>
  gstar pySpace s5 fun s6 =>
  (eatStr ['c', 'a', 'l'] s6).map fun _ => g

/-- Anchored matcher for `([\d.]+)g\s*WORD` (case-sensitive), shared by the
protein, fat and carb searches on a meal line. -/
def gramMatchAt (word : List Char) (s : List Char) : Option (List Char) :=
  gplusCap (fun c => pyDigit c || c = '.') s fun g s1 =>
  match eatStr ['g'] s1 with
  | none => none
  | some s2 =>
  gstar pySpace s2 fun s3 =>
  (eatStr word s3).map fun _ => g

/-- `re.search` of `([\d.]+)g\s*protein` on a meal line. -/
def p_match (line : List Char) : Option (List Char) :=
  searchFrom (gramMatchAt "protein".data) line

/-- `re.search` of `([\d.]+)g\s*fat` on a meal line. -/
def f_match (line : List Char) : Option (List Char) :=
  searchFrom (gramMatchAt "fat".data) line

/-- `re.search` of `([\d.]+)g\s*carb` on a meal line. -/
def c_match (line : List Char) : Option (List Char) :=
  searchFrom (gramMatchAt "carb".data) line

/-- `re.split(r'^## ', content, flags=re.MULTILINE)`: split the document at
each occurrence of `## ` at the start of a line, removing the delimiter.
The Boolean records whether the scan is at a line start. -/
def splitSecGo : List Char → Bool → List Char → List (List Char)
  | '#' :: '#' :: ' ' :: rest, true, acc => acc.reverse :: splitSecGo rest false []
  | '\n' :: rest, _, acc => splitSecGo rest true ('\n' :: acc)
  | c :: rest, _, acc => splitSecGo rest false (c :: acc)
  | [], _, acc => [acc.reverse]

/-- The sections of the document; the first element is the preamble before
the first level-2 heading (possibly empty). -/
def splitSections (content : List Char) : List (List Char) :=
  splitSecGo content true []

structure Meal where
  time : List Char
  name : List Char
  calories : Nat
  protein : Nat
  fat : Nat
  carbs : Nat
deriving DecidableEq, Repr

structure Totals where
  calories : Nat
  protein : Nat
  fat : Nat
  carbs : Nat
deriving DecidableEq, Repr

/-- Build the meal dictionary appended at the end of the item loop: the
name is stripped, and the protein/fat/carb figures are read from
`parse_line` (the bullet line itself for Format 1, the consumed sub-bullet
for Format 2), each defaulting to 0. -/
def mkMeal (time name : List Char) (cal : Nat) (parseLine : List Char) : Meal :=
  { time := time
    name := pyStrip name
    calories := cal
    protein := match p_match parseLine with | some g => gramNum g | none => 0
    fat := match f_match parseLine with | some g => gramNum g | none => 0
    carbs := match c_match parseLine with | some g => gramNum g | none => 0 }

/-- The `while i < len(lines)` loop of `parse_food_log` over one section's
lines: bold dash-bullet items yield meals via the two-format fallback; an
item with a calorie figure on its own line is taken as Format 1; otherwise
the very next line is consumed as a Format 2 sub-bullet when it carries a
calorie figure; otherwise the item is skipped and scanning resumes at the
next line. -/
def scanLines (time : List Char) : List (List Char) → List Meal
  | [] => []
  | [line] =>
    match item_match line with
    | none => []
    | some name =>
      match cal_on_line line with
      | some g => [mkMeal time name (calNum g) line]
      | none => []
  | line :: next :: rest2 =>
    match item_match line with
    | none => scanLines time (next :: rest2)
    | some name =>
      match cal_on_line line with
      | some g => mkMeal time name (calNum g) line :: scanLines time (next :: rest2)
      | none =>
        match sub_cal next with
        | some g => mkMeal time name (calNum g) next :: scanLines time rest2
        | none => scanLines time (next :: rest2)

/-- The per-section update of `current_time`: prefer a parenthesized clock
time in the header, fall back to the leading word-sequence, else keep the
previous label. -/
def newTime (cur : List Char) (sec : List Char) : List Char :=
  match time_match sec with
  | some t => pyStrip t
  | none =>
    match section_name_match sec with
    | some n => pyStrip n
    | none => cur

/-- The `for section in sections` loop: update the time label, scan the
section's lines, and concatenate the meals in order. -/
def processSections (cur : List Char) : List (List Char) → List Meal
  | [] => []
  | sec :: rest =>
    scanLines (newTime cur sec) (splitNl sec) ++
      processSections (newTime cur sec) rest

/-- The totals as read from the totals line alone: calories and protein
come from the combined pattern (both or neither), fat and carbs from their
own independent searches; absent figures stay 0. -/
def extract_totals (content : List Char) : Totals :=
  { calories :=
      match totals_match content with
      | some g => calNum g.1
      | none => 0
    protein :=
      match totals_match content with
      | some g => gramNum g.2
      | none => 0
    fat :=
      match fat_match content with
      | some g => gramNum g
      | none => 0
    carbs :=
      match carbs_match content with
      | some g => gramNum g
      | none => 0 }

def mealCalSum (ms : List Meal) : Nat := (ms.map Meal.calories).sum
def mealProSum (ms : List Meal) : Nat := (ms.map Meal.protein).sum
def mealFatSum (ms : List Meal) : Nat := (ms.map Meal.fat).sum
def mealCarbSum (ms : List Meal) : Nat := (ms.map Meal.carbs).sum

/-- The `if meals:` backfill block: every totals field that is exactly 0 is
replaced by the corresponding meal sum, but only when at least one meal was
parsed. -/
def backfill (t : Totals) (meals : List Meal) : Totals :=
  if meals.isEmpty then t
  else
    { calories := if t.calories = 0 then mealCalSum meals else t.calories
      protein := if t.protein = 0 then mealProSum meals else t.protein
      fat := if t.fat = 0 then mealFatSum meals else t.fat
      carbs := if t.carbs = 0 then mealCarbSum meals else t.carbs }

/-- `parse_food_log` applied to the text of an existing log file: read the
totals line, scan every section (the preamble included) for meal items,
then backfill missing totals from the meal sums. -/
def parse_food_log_content (content : List Char) : List Meal × Totals :=
  let t := extract_totals content
  let meals := processSections [] (splitSections content)
  (meals, backfill t meals)

/-- `parse_food_log`: `logs` models the `memory/health/<date>.md` lookup;
a missing file yields `none` (the script's `(None, None)`). -/
def parse_food_log (logs : List Char → Option (List Char))
    (date_str : List Char) : Option (List Meal × Totals) :=
  (logs date_str).map parse_food_log_content

/-- Anchored matcher for the workout-section pattern
`## Workout.*?\n(.*?)(?=\n## |\Z)` compiled with `re.DOTALL` and
`re.IGNORECASE`: the heading line through its newline, then the lazily
captured body up to the next `\n## ` or the end of the document. -/
def workoutSectionAt (s : List Char) : Option (List Char) :=
  match eatStrCI "## workout".data s with
  | none => none
  | some s1 =>
  lstar (fun _ => true) s1 fun s2 =>
  match eatStr ['\n'] s2 with
  | none => none
  | some s3 =>
  lstarCap (fun _ => true) s3 fun g s4 =>
  if s4.isEmpty || List.isPrefixOf ['\n', '#', '#', ' '] s4 then some g else none

/-- `re.search` for the workout section body in the document. -/
def workout_section (content : List Char) : Option (List Char) :=
  searchFrom workoutSectionAt content

/-- The greedy optional parenthesized annotation `(?:\(.*?\))?` in an
exercise line: try the parenthesized branch first, then the empty match. -/
def parenOpt (s : List Char) (k : List Char → Option α) : Option α :=
  let withParen :=
    match eatStr ['('] s with
    | none => none
    | some s1 =>
      lstar (fun c => c != '\n') s1 fun s2 =>
      match eatStr [')'] s2 with
      | none => none
      | some s3 => k s3
  match withParen with
  | some r => some r
  | none => k s

/-- The weight unit token `(?:lbs?|pounds?)`: `lbs?` is preferred, each
with a greedy optional `s`. -/
def unitTok (s : List Char) (k : List Char → Option α) : Option α :=
  let lb :=
    match eatStr ['l', 'b'] s with
    | none => none
    | some s1 => optChar 's' s1 k
  match lb with
  | some r => some r
  | none =>
    match eatStr ['p', 'o', 'u', 'n', 'd'] s with
    | none => none
    | some s1 => optChar 's' s1 k

/-- `re.match` of
`\s*\d+\.\s+(.+?)\s*(?:\(.*?\))?\s*[—\-]+\s*(\d+)\s*(?:lbs?|pounds?)`
against a line of the workout section.  Returns the raw name group and the
weight group. -/
def ex_match (line : List Char) : Option (List Char × List Char) :=
  gstar pySpace line fun s1 =>
  gplus pyDigit s1 fun s2 =>
  match eatStr ['.'] s2 with
  | none => none
  | some s3 =>
  gplus pySpace s3 fun s4 =>
  lplusCap (fun c => c != '\n') s4 fun name s5 =>
  gstar pySpace s5 fun s6 =>
  parenOpt s6 fun s7 =>
  gstar pySpace s7 fun s8 =>
  gplus (fun c => c = '—' || c = '-') s8 fun s9 =>
  gstar pySpace s9 fun s10 =>
  gplusCap pyDigit s10 fun w s11 =>
  gstar pySpace s11 fun s12 =>
  unitTok s12 fun _ => some (name, w)

/-- Anchored matcher for `(\d+)\s*[×x]\s*(\d+)`: the sets×reps figure. -/
def setsMatchAt (s : List Char) : Option (List Char × List Char) :=
  gplusCap pyDigit s fun a s1 =>
  gstar pySpace s1 fun s2 =>
  match s2 with
  | [] => none
  | c :: s3 =>
    if c = '×' || c = 'x' then
      gstar pySpace s3 fun s4 =>
      gplusCap pyDigit s4 fun b _ => some (a, b)
    else none

/-- `re.search` for the sets×reps figure on an exercise line. -/
def sets_match (line : List Char) : Option (List Char × List Char) :=
  searchFrom setsMatchAt line

/-- Anchored matcher for `sets?\s*\(([^)]+)\)`: a variable-reps clause. -/
def varRepsAt (s : List Char) : Option (List Char) :=
  match eatStr ['s', 'e', 't'] s with
  | none => none
  | some s1 =>
  optChar 's' s1 fun s2 =>
  gstar pySpace s2 fun s3 =>
  match eatStr ['('] s3 with
  | none => none
  | some s4 =>
  gplusCap (fun c => c != ')') s4 fun g s5 =>
  (eatStr [')'] s5).map fun _ => g

/-- `re.search` for the variable-reps clause on an exercise line. -/
def var_reps (line : List Char) : Option (List Char) :=
  searchFrom varRepsAt line

structure Workout where
  name : List Char
  weight : Nat
  sets : Nat
  reps : List Char
deriving DecidableEq, Repr

/-- The per-line body of the workout loop: a line qualifies only if
`ex_match` succeeds; `sets` and the default `reps` come from the `N×M`
figure (0 and "0" when absent); a variable-reps clause overrides `reps`
with its contents stripped of spaces. -/
def lineToWorkout (line : List Char) : Option Workout :=
  match ex_match line with
  | none => none
  | some nw =>
    let sets := match sets_match line with | some ab => natOfDigits ab.1 | none => 0
    let reps0 := match sets_match line with | some ab => ab.2 | none => ['0']
    let reps := match var_reps line with
      | some g => g.filter (fun c => c != ' ')
      | none => reps0
    some { name := pyStrip nw.1, weight := natOfDigits nw.2, sets := sets, reps := reps }

/-- `parse_workouts` applied to the text of an existing log file. -/
def parse_workouts_content (content : List Char) : List Workout :=
  match workout_section content with
  | none => []
  | some body => (splitNl body).filterMap lineToWorkout

/-- The fitness metrics returned by the collaborator `get_fitbit_data`.
The Fitbit weight is a decimal number in the source; no claim concerns its
value, and it is carried here as an opaque integer-valued pass-through. -/
structure FitbitData where
  steps : Nat
  caloriesBurned : Nat
  restingHR : Option Nat
  activeMinutes : Nat
  sleepMinutes : Nat
  weight : Option Int
deriving DecidableEq, Repr

/-- One entry of the persisted `days` array of `health-data.json`. -/
structure DayRecord where
  date : List Char
  fitbit : FitbitData
  calories : Nat
  protein : Nat
  fat : Nat
  carbs : Nat
  meals : List Meal
  workouts : List Workout
deriving DecidableEq, Repr

/-- Python string `<=`: lexicographic comparison by code point. -/
def strLe : List Char → List Char → Bool
  | [], _ => true
  | _ :: _, [] => false
  | a :: as, b :: bs =>
    if a.toNat = b.toNat then strLe as bs
    else decide (a.toNat < b.toNat)

/-- Stable insertion by ascending date: the new element goes before the
first existing element it is `<=` to, hence after any equal dates already
present when folded from the right. -/
def insertByDate (x : DayRecord) : List DayRecord → List DayRecord
  | [] => [x]
  | y :: ys => if strLe x.date y.date then x :: y :: ys else y :: insertByDate x ys

/-- `data["days"].sort(key=lambda d: d["date"])`: Python's stable sort,
modelled as stable insertion sort (extensionally equal on lists). -/
def sortByDate (l : List DayRecord) : List DayRecord :=
  l.foldr insertByDate []

/-- Ascending-by-date check on a list of records. -/
def sortedByDate : List DayRecord → Bool
  | [] => true
  | [_] => true
  | x :: y :: r => strLe x.date y.date && sortedByDate (y :: r)

/-- The environment a run of `update_dashboard` executes in: the loaded
`days` array, the log directory (date string to file content, `none` when
the file does not exist), and the metrics the Fitbit collaborator returns. -/
structure Env where
  days : List DayRecord
  logs : List Char → Option (List Char)
  fitbit : FitbitData

/-- What a run produced: the `days` array as persisted at the end of the
run, the return value, and whether the data file was rewritten and the
build and deploy subprocesses invoked. -/
structure RunResult where
  days : List DayRecord
  ok : Bool
  wroteDataFile : Bool
  ranBuild : Bool
  ranDeploy : Bool
deriving Repr

/-- The dict literal `entry` built in `update_dashboard`. -/
def mkEntry (date_str : List Char) (fb : FitbitData) (t : Totals)
    (meals : List Meal) (workouts : List Workout) : DayRecord :=
  { date := date_str, fitbit := fb, calories := t.calories, protein := t.protein,
    fat := t.fat, carbs := t.carbs, meals := meals, workouts := workouts }

/-- `update_dashboard date_str`: no-op returning `False` when the date is
already present or the log file is missing; otherwise parse, append the new
entry, sort by date, rewrite the data file, and run build then deploy. -/
def update_dashboard (env : Env) (date_str : List Char) : RunResult :=
  if date_str ∈ env.days.map DayRecord.date then
    { days := env.days, ok := false, wroteDataFile := false,
      ranBuild := false, ranDeploy := false }
  else
    match parse_food_log env.logs date_str with
    | none =>
      { days := env.days, ok := false, wroteDataFile := false,
        ranBuild := false, ranDeploy := false }
    | some mt =>
      let workouts :=
        match env.logs date_str with
        | some c => parse_workouts_content c
        | none => []
      let entry := mkEntry date_str env.fitbit mt.2 mt.1 workouts
      { days := sortByDate (env.days ++ [entry]), ok := true,
        wroteDataFile := true, ranBuild := true, ranDeploy := true }

/-! Concrete inputs used by the claim theorems, witnesses and
counterexamples. -/

def probeFitbit : FitbitData :=
  { steps := 0, caloriesBurned := 0, restingHR := none, activeMinutes := 0,
    sleepMinutes := 0, weight := none }

def c1docA : List Char :=
  "## Lunch\n- **A** — 500 cal, 20g protein, 10g fat, 40g carbs\n- **B** — 300 cal, 15g protein, 5g fat, 30g carbs\n".data

def c1docB : List Char :=
  "**Daily totals:** ~1850 cal, 95g protein, 60g fat, 180g carbs\n## Lunch\n- **A** — 500 cal, 20g protein, 10g fat, 40g carbs\n".data

def c2doc : List Char := "## Lunch\n- **A** — 500 cal\n".data

def c2logs : List Char → Option (List Char) :=
  fun d => if d = "2026-01-02".data then some c2doc else none

def c2env : Env := { days := [], logs := c2logs, fitbit := probeFitbit }

def c3env : Env := { days := [], logs := fun _ => none, fitbit := probeFitbit }

def c4rec : DayRecord :=
  { date := "2026-01-05".data, fitbit := probeFitbit, calories := 0, protein := 0,
    fat := 0, carbs := 0, meals := [], workouts := [] }

def c4env : Env := { days := [c4rec], logs := c2logs, fitbit := probeFitbit }

def c5doc : List Char :=
  "## Workout\n2. Leg Press — 200 lbs, 3 sets (10, 10, 6)\n".data

def c5line : List Char := "2. Leg Press — 200 lbs, 3 sets (10, 10, 6)".data

def c6line1 : List Char := "- **Grilled chicken** (4oz)".data

def c6line2 : List Char := "  - ~250cal, ~45g protein".data

def c6doc : List Char := "- **Grilled chicken** (4oz)\n  - ~250cal, ~45g protein".data

def c7doc : List Char := "## Lunch\n- **Ice water**\n- **A** — 100 cal\n".data

def c7line1 : List Char := "- **Ice water**".data

def c7line2 : List Char := "- **A** — 100 cal".data

def c8docA : List Char := "**Daily totals:** 1850 cal\n".data

def c8docB : List Char := "**Daily totals:** 1850 cal, 95g protein\n".data

def c8docC : List Char := "**Daily totals:** misc 60g fat\n".data

def c9docA : List Char := "## Lunch\n- **A** — 250.5 cal, 10g protein\n".data

def c9docB : List Char := "## Lunch\n- **B** — 300 cal, 45.7g protein\n".data

def c9docC : List Char := "## Snack\n- **C** — ~1,850 cal\n".data

def c9docD : List Char := "**Daily totals:** 2000 cal, 95.9g protein\n".data

def c10docA : List Char := "Morning (7:15 AM)\n- **Toast** — 100 cal\n".data

def c10docB : List Char :=
  "Notes day\n- **Toast** — 100 cal\n## Lunch\n- **Soup** — 200 cal\n".data

def c10pre : List Char := "Notes day\n- **Toast** — 100 cal\n".data

def c10sec : List Char := "Lunch\n- **Soup** — 200 cal\n".data

example : totals_match "**Daily totals:** ~1,850 cal, 95g protein".data =
    some ("1,850".data, "95".data) := by decide

example : totals_match "**Daily totals:** 1850 cal".data = none := by decide

example : fat_match "**Daily totals:** ~1850 cal, 95g protein, 60g fat, 180g carbs".data =
    some "60".data := by decide

example : item_match "- **Grilled chicken** (4oz)".data = some "Grilled chicken".data := by
  decide

example : cal_on_line "- **A** — 500 cal, 20g protein".data = some "500".data := by decide

example : cal_on_line "- **A** — 250.5 cal".data = none := by decide

example : sub_cal "  - ~250cal, ~45g protein".data = some "250".data := by decide

example : time_match "Evening Snacks (~4:30 PM)\nx".data = some "4:30 PM".data := by decide

example : section_name_match "Lunch\n- **A**".data = some "Lunch\n".data := by decide

example :
    parse_food_log_content
      "## Lunch\n- **A** — 500 cal, 20g protein, 10g fat, 40g carbs\n- **B** — 300 cal, 15g protein, 5g fat, 30g carbs\n".data =
    ([⟨"Lunch".data, "A".data, 500, 20, 10, 40⟩,
      ⟨"Lunch".data, "B".data, 300, 15, 5, 30⟩],
     ⟨800, 35, 15, 70⟩) := by decide

example :
    parse_workouts_content
      "## Workout\n1. Pectoral Fly (Life Fitness) — 70 lbs, 4×10\n2. Leg Press — 200 lbs, 3 sets (10, 10, 6)\n".data =
    [⟨"Pectoral Fly".data, 70, 4, "10".data⟩,
     ⟨"Leg Press".data, 200, 0, "10,10,6".data⟩] := by decide

example :
    ex_match "3. Bench Press (Barbell) — 135 lbs, 3×8".data =
      some ("Bench Press".data, "135".data) := by decide

/-! Helper lemmas about the date sort. -/

theorem strLe_total (a b : List Char) : strLe a b = true ∨ strLe b a = true := by
  induction a generalizing b with
  | nil => left; rfl
  | cons x xs ih =>
    cases b with
    | nil => right; rfl
    | cons y ys =>
      unfold strLe
      by_cases h : x.toNat = y.toNat
      · rw [if_pos h, if_pos h.symm]
        exact ih ys
      · rw [if_neg h, if_neg (fun hh => h hh.symm)]
        rcases Nat.lt_trichotomy x.toNat y.toNat with hl | he | hg
        · left; simpa using hl
        · exact absurd he h
        · right; simpa using hg

theorem sortedByDate_insertByDate (x : DayRecord) (l : List DayRecord)
    (h : sortedByDate l = true) : sortedByDate (insertByDate x l) = true := by
  induction l with
  | nil => rfl
  | cons y ys ih =>
    unfold insertByDate
    by_cases hxy : strLe x.date y.date = true
    · rw [if_pos hxy]
      show (strLe x.date y.date && sortedByDate (y :: ys)) = true
      rw [hxy, h]
      rfl
    · rw [if_neg hxy]
      have hyx : strLe y.date x.date = true := by
        rcases strLe_total x.date y.date with hc | hc
        · exact absurd hc hxy
        · exact hc
      cases ys with
      | nil =>
        show sortedByDate (y :: insertByDate x []) = true
        show (strLe y.date x.date && sortedByDate [x]) = true
        rw [hyx]
        rfl
      | cons z zs =>
        have hsplit : strLe y.date z.date = true ∧ sortedByDate (z :: zs) = true := by
          have hh : (strLe y.date z.date && sortedByDate (z :: zs)) = true := h
          exact And.intro (Bool.and_elim_left hh) (Bool.and_elim_right hh)
        have hx := ih hsplit.2
        unfold insertByDate
        by_cases hxz : strLe x.date z.date = true
        · rw [if_pos hxz]
          show (strLe y.date x.date && sortedByDate (x :: z :: zs)) = true
          have h2 : sortedByDate (x :: z :: zs) = true := by
            show (strLe x.date z.date && sortedByDate (z :: zs)) = true
            rw [hxz, hsplit.2]
            rfl
          rw [hyx, h2]
          rfl
        · rw [if_neg hxz]
          have hre : insertByDate x (z :: zs) = z :: insertByDate x zs := by
            show (if strLe x.date z.date = true then x :: z :: zs
                else z :: insertByDate x zs) = z :: insertByDate x zs
            rw [if_neg hxz]
          rw [hre] at hx
          show (strLe y.date z.date && sortedByDate (z :: insertByDate x zs)) = true
          rw [hsplit.1, hx]
          rfl

theorem sortedByDate_sortByDate (l : List DayRecord) :
    sortedByDate (sortByDate l) = true := by
  induction l with
  | nil => rfl
  | cons x xs ih => exact sortedByDate_insertByDate x _ ih

theorem insertByDate_perm (x : DayRecord) (l : List DayRecord) :
    (insertByDate x l).Perm (x :: l) := by
  induction l with
  | nil => exact List.Perm.refl _
  | cons y ys ih =>
    unfold insertByDate
    by_cases h : strLe x.date y.date = true
    · rw [if_pos h]
    · rw [if_neg h]
      exact (ih.cons y).trans (List.Perm.swap x y ys)

theorem sortByDate_perm (l : List DayRecord) : (sortByDate l).Perm l := by
  induction l with
  | nil => exact List.Perm.refl _
  | cons x xs ih => exact (insertByDate_perm x (sortByDate xs)).trans (ih.cons x)

/-- A run whose target date is already present is a pure no-op that
returns the failure indicator. -/
theorem update_dashboard_existing (env : Env) (D : List Char)
    (h : D ∈ env.days.map DayRecord.date) :
    update_dashboard env D =
      { days := env.days, ok := false, wroteDataFile := false,
        ranBuild := false, ranDeploy := false } := by
  unfold update_dashboard
  rw [if_pos h]

/-- The shape of a run whose target date is new but whose log file is
missing: a pure no-op returning the failure indicator. -/
theorem update_dashboard_nolog (env : Env) (D : List Char)
    (hm : D ∉ env.days.map DayRecord.date) (hc : env.logs D = none) :
    update_dashboard env D =
      { days := env.days, ok := false, wroteDataFile := false,
        ranBuild := false, ranDeploy := false } := by
  have hp : parse_food_log env.logs D = none := by
    simp [parse_food_log, hc]
  unfold update_dashboard
  rw [if_neg hm, hp]

/-- The shape of a successful run: the new entry is appended, the array is
re-sorted, and the file write, build and deploy all happen. -/
theorem update_dashboard_run (env : Env) (D c : List Char)
    (hm : D ∉ env.days.map DayRecord.date) (hc : env.logs D = some c) :
    update_dashboard env D =
      { days := sortByDate (env.days ++
          [mkEntry D env.fitbit (parse_food_log_content c).2
            (parse_food_log_content c).1 (parse_workouts_content c)]),
        ok := true, wroteDataFile := true, ranBuild := true, ranDeploy := true } := by
  have hp : parse_food_log env.logs D = some (parse_food_log_content c) := by
    simp [parse_food_log, hc]
  simp only [update_dashboard, if_neg hm, hp, hc]

/-- C1: for every parsed log document, each `MacroTotals` field equals the
explicit totals-line value when present and non-zero; any field that is 0
after totals-line extraction is backfilled from the meal sums, but only
when at least one meal was parsed; a log with no totals line and meals
(500,20,10,40) and (300,15,5,30) yields totals (800,35,15,70); explicit
non-zero totals-line values are never overwritten by meal sums. -/
theorem claim_C1_totals_backfill :
    (∀ content : List Char,
      (parse_food_log_content content).2 =
        (if (parse_food_log_content content).1.isEmpty then extract_totals content
         else
           { calories :=
               if (extract_totals content).calories = 0
               then mealCalSum (parse_food_log_content content).1
               else (extract_totals content).calories
             protein :=
               if (extract_totals content).protein = 0
               then mealProSum (parse_food_log_content content).1
               else (extract_totals content).protein
             fat :=
               if (extract_totals content).fat = 0
               then mealFatSum (parse_food_log_content content).1
               else (extract_totals content).fat
             carbs :=
               if (extract_totals content).carbs = 0
               then mealCarbSum (parse_food_log_content content).1
               else (extract_totals content).carbs }))
    ∧ parse_food_log_content c1docA =
        ([⟨"Lunch".data, "A".data, 500, 20, 10, 40⟩,
          ⟨"Lunch".data, "B".data, 300, 15, 5, 30⟩], ⟨800, 35, 15, 70⟩)
    ∧ parse_food_log_content c1docB =
        ([⟨"Lunch".data, "A".data, 500, 20, 10, 40⟩], ⟨1850, 95, 60, 180⟩) :=
  ⟨fun _ => rfl, by decide, by decide⟩

/-- C2: for a date with no existing record and an existing log, the first
run succeeds and yields exactly one record for that date, and a second run
on the resulting dataset detects the existing record, returns the failure
indicator, and leaves the dataset unchanged with no write, build or
deploy. -/
theorem claim_C2_idempotent (env : Env) (D : List Char)
    (h1 : D ∉ env.days.map DayRecord.date) (h2 : env.logs D ≠ none) :
    (update_dashboard env D).ok = true
    ∧ (update_dashboard env D).days.countP (fun d => decide (d.date = D)) = 1
    ∧ update_dashboard { env with days := (update_dashboard env D).days } D =
        { days := (update_dashboard env D).days, ok := false, wroteDataFile := false,
          ranBuild := false, ranDeploy := false } := by
  cases hc : env.logs D with
  | none => exact absurd hc h2
  | some c =>
    have hrun := update_dashboard_run env D c h1 hc
    set e := mkEntry D env.fitbit (parse_food_log_content c).2
        (parse_food_log_content c).1 (parse_workouts_content c) with he
    have hperm := sortByDate_perm (env.days ++ [e])
    have hdate : e.date = D := rfl
    have hcount0 : env.days.countP (fun d => decide (d.date = D)) = 0 := by
      rw [List.countP_eq_zero]
      intro a ha
      simp only [decide_eq_true_eq]
      intro had
      exact h1 (had ▸ List.mem_map_of_mem DayRecord.date ha)
    have hcount :
        (sortByDate (env.days ++ [e])).countP (fun d => decide (d.date = D)) = 1 := by
      rw [hperm.countP_eq, List.countP_append, hcount0]
      simp [List.countP_cons, hdate]
    have hmem : D ∈ (sortByDate (env.days ++ [e])).map DayRecord.date := by
      have hin : e ∈ sortByDate (env.days ++ [e]) := hperm.mem_iff.mpr (by simp)
      have := List.mem_map_of_mem DayRecord.date hin
      rwa [hdate] at this
    refine ⟨by rw [hrun], ?_, ?_⟩
    · rw [hrun]
      exact hcount
    · rw [hrun]
      exact update_dashboard_existing
        { env with days := sortByDate (env.days ++ [e]) } D hmem

/-- C2 witness: a concrete empty dataset and a concrete log for
2026-01-02. -/
theorem claim_C2_witness :
    ("2026-01-02".data ∉ c2env.days.map DayRecord.date)
    ∧ ((update_dashboard c2env "2026-01-02".data).ok = true
      ∧ (update_dashboard c2env "2026-01-02".data).days.countP
          (fun d => decide (d.date = "2026-01-02".data)) = 1
      ∧ update_dashboard
            { c2env with days := (update_dashboard c2env "2026-01-02".data).days }
            "2026-01-02".data =
          { days := (update_dashboard c2env "2026-01-02".data).days, ok := false,
            wroteDataFile := false, ranBuild := false, ranDeploy := false }) :=
  ⟨by decide, claim_C2_idempotent c2env "2026-01-02".data (by decide) (by decide)⟩

/-- C3: for a target date whose log file does not exist, the run leaves the
persisted days unchanged, does not rewrite the data file, and invokes
neither build nor deploy. -/
theorem claim_C3_frame (env : Env) (D : List Char) (h : env.logs D = none) :
    (update_dashboard env D).days = env.days
    ∧ (update_dashboard env D).wroteDataFile = false
    ∧ (update_dashboard env D).ranBuild = false
    ∧ (update_dashboard env D).ranDeploy = false := by
  by_cases hm : D ∈ env.days.map DayRecord.date
  · rw [update_dashboard_existing env D hm]
    exact ⟨rfl, rfl, rfl, rfl⟩
  · rw [update_dashboard_nolog env D hm h]
    exact ⟨rfl, rfl, rfl, rfl⟩

/-- C3 witness: a concrete environment with no log files at all. -/
theorem claim_C3_witness :
    c3env.logs "2026-01-02".data = none
    ∧ ((update_dashboard c3env "2026-01-02".data).days = c3env.days
      ∧ (update_dashboard c3env "2026-01-02".data).wroteDataFile = false
      ∧ (update_dashboard c3env "2026-01-02".data).ranBuild = false
      ∧ (update_dashboard c3env "2026-01-02".data).ranDeploy = false) :=
  ⟨rfl, claim_C3_frame c3env "2026-01-02".data rfl⟩

/-- C4: starting from a date-sorted dataset, the days persisted by any run
are again sorted ascending by date string — in particular when the new
record's date precedes every existing entry, since the successful branch
re-sorts after appending. -/
theorem claim_C4_sorted (env : Env) (D : List Char)
    (h : sortedByDate env.days = true) :
    sortedByDate (update_dashboard env D).days = true := by
  by_cases hm : D ∈ env.days.map DayRecord.date
  · rw [update_dashboard_existing env D hm]
    exact h
  · cases hc : env.logs D with
    | none =>
      rw [update_dashboard_nolog env D hm hc]
      exact h
    | some c =>
      rw [update_dashboard_run env D c hm hc]
      exact sortedByDate_sortByDate _

/-- C4 witness: appending 2026-01-02 in front of an existing 2026-01-05
record. -/
theorem claim_C4_witness :
    sortedByDate c4env.days = true
    ∧ sortedByDate (update_dashboard c4env "2026-01-02".data).days = true :=
  ⟨by decide, claim_C4_sorted c4env "2026-01-02".data (by decide)⟩

/-- C5 counterexample: the claim predicts sets = 3 for the line
"2. Leg Press — 200 lbs, 3 sets (10, 10, 6)", but the sets count is taken
only from an `N×M` figure, which this line lacks, so the parsed entry has
sets = 0. -/
theorem claim_C5_counterexample :
    parse_workouts_content c5doc = [⟨"Leg Press".data, 200, 0, "10,10,6".data⟩]
    ∧ ¬ parse_workouts_content c5doc =
        [⟨"Leg Press".data, 200, 3, "10,10,6".data⟩] :=
  ⟨by decide, by decide⟩

/-- C5 as amended: for every qualifying workout line, the reps string of a
variable-reps clause overrides the default with the clause contents
stripped of spaces, while the sets count comes only from an `N×M` figure
and defaults to 0 when that figure is absent; the Leg Press line therefore
yields {name: "Leg Press", weight: 200, sets: 0, reps: "10,10,6"}. -/
theorem claim_C5_var_reps :
    (∀ (line : List Char) (nw : List Char × List Char), ex_match line = some nw →
      lineToWorkout line =
        some { name := pyStrip nw.1
               weight := natOfDigits nw.2
               sets :=
                 match sets_match line with
                 | some ab => natOfDigits ab.1
                 | none => 0
               reps :=
                 match var_reps line with
                 | some g => g.filter (fun c => c != ' ')
                 | none =>
                   match sets_match line with
                   | some ab => ab.2
                   | none => ['0'] })
    ∧ parse_workouts_content c5doc =
        [⟨"Leg Press".data, 200, 0, "10,10,6".data⟩] := by
  constructor
  · intro line nw h
    simp only [lineToWorkout, h]
  · decide

/-- C5 witness: the per-line rule applied to the Leg Press line itself. -/
theorem claim_C5_witness :
    ex_match c5line = some ("Leg Press".data, "200".data)
    ∧ lineToWorkout c5line =
        some { name := pyStrip "Leg Press".data
               weight := natOfDigits "200".data
               sets :=
                 match sets_match c5line with
                 | some ab => natOfDigits ab.1
                 | none => 0
               reps :=
                 match var_reps c5line with
                 | some g => g.filter (fun c => c != ' ')
                 | none =>
                   match sets_match c5line with
                   | some ab => ab.2
                   | none => ['0'] } :=
  ⟨by decide,
    claim_C5_var_reps.1 c5line ("Leg Press".data, "200".data) (by decide)⟩

/-- C6: a bold dash-bullet with no inline calorie figure whose next line is
a calorie-leading sub-bullet yields one meal whose calories and macro
figures come from the sub-bullet, and the sub-bullet is consumed so
scanning resumes after it; the Grilled chicken document yields exactly one
meal (250, 45, 0, 0). -/
theorem claim_C6_format_b :
    (∀ (time l1 l2 : List Char) (rest : List (List Char)) (name g : List Char),
      item_match l1 = some name → cal_on_line l1 = none → sub_cal l2 = some g →
      scanLines time (l1 :: l2 :: rest) =
        mkMeal time name (calNum g) l2 :: scanLines time rest)
    ∧ parse_food_log_content c6doc =
        ([⟨[], "Grilled chicken".data, 250, 45, 0, 0⟩], ⟨250, 45, 0, 0⟩) := by
  constructor
  · intro time l1 l2 rest name g h1 h2 h3
    simp only [scanLines, h1, h2, h3]
  · decide

/-- C6 witness: the loop step applied to the Grilled chicken bullet and its
sub-bullet. -/
theorem claim_C6_witness :
    item_match c6line1 = some "Grilled chicken".data
    ∧ sub_cal c6line2 = some "250".data
    ∧ scanLines [] [c6line1, c6line2] =
        mkMeal [] "Grilled chicken".data (calNum "250".data) c6line2 ::
          scanLines [] [] :=
  ⟨by decide, by decide,
    claim_C6_format_b.1 [] c6line1 c6line2 [] "Grilled chicken".data "250".data
      (by decide) (by decide) (by decide)⟩

/-- C7: a bold dash-bullet for which neither the line itself nor a
calorie-leading sub-bullet on the very next line yields a calorie figure is
skipped: it produces no meal and scanning resumes at the next line, so it
contributes nothing to the output list or the backfilled totals; the Ice
water document yields only the meal "A". -/
theorem claim_C7_skip :
    (∀ (time l1 : List Char) (rest : List (List Char)) (name : List Char),
      item_match l1 = some name → cal_on_line l1 = none →
      (match rest with
       | [] => True
       | l2 :: _ => sub_cal l2 = none) →
      scanLines time (l1 :: rest) = scanLines time rest)
    ∧ parse_food_log_content c7doc =
        ([⟨"Lunch".data, "A".data, 100, 0, 0, 0⟩], ⟨100, 0, 0, 0⟩) := by
  constructor
  · intro time l1 rest name h1 h2 h3
    cases rest with
    | nil => simp only [scanLines, h1, h2]
    | cons l2 r2 =>
      have h3x : sub_cal l2 = none := h3
      simp only [scanLines, h1, h2, h3x]
  · decide

/-- C7 witness: the loop step applied to the Ice water bullet followed by
an ordinary bullet. -/
theorem claim_C7_witness :
    item_match c7line1 = some "Ice water".data
    ∧ cal_on_line c7line1 = none
    ∧ scanLines "Lunch".data [c7line1, c7line2] =
        scanLines "Lunch".data [c7line2] :=
  ⟨by decide, by decide,
    claim_C7_skip.1 "Lunch".data c7line1 [c7line2] "Ice water".data
      (by decide) (by decide) (by decide)⟩

/-- C8 counterexample: on a totals line carrying only a calorie figure, the
combined calories-and-protein pattern fails, so calories stays 0 instead of
being set to 1850 as the claim predicts. -/
theorem claim_C8_counterexample :
    (parse_food_log_content c8docA).2 = ⟨0, 0, 0, 0⟩
    ∧ ¬ (parse_food_log_content c8docA).2.calories = 1850 :=
  ⟨by decide, by decide⟩

/-- C8 as amended: the totals-line calorie figure is extracted only
together with a protein figure on the same line — when the combined
pattern fails both stay 0 — while the fat and carb figures are each
independently optional (set by their own searches even when calories and
protein are absent). -/
theorem claim_C8_totals_line :
    (∀ content : List Char, totals_match content = none →
      (extract_totals content).calories = 0 ∧ (extract_totals content).protein = 0)
    ∧ totals_match c8docA = none
    ∧ parse_food_log_content c8docB = ([], ⟨1850, 95, 0, 0⟩)
    ∧ parse_food_log_content c8docC = ([], ⟨0, 0, 60, 0⟩) := by
  refine ⟨?_, by decide, by decide, by decide⟩
  intro content h
  constructor
  · simp [extract_totals, h]
  · simp [extract_totals, h]

/-- C8 witness: the cal-only totals line instantiating the no-match
consequence. -/
theorem claim_C8_witness :
    totals_match c8docA = none
    ∧ ((extract_totals c8docA).calories = 0 ∧ (extract_totals c8docA).protein = 0) :=
  ⟨by decide, claim_C8_totals_line.1 c8docA (by decide)⟩

/-- C9 counterexample: the claim predicts that the fractional calorie
figure in "- **A** — 250.5 cal, 10g protein" is truncated to 250 and still
recognized; the calorie patterns accept only digits and commas, so the
item matches nothing and is dropped entirely. -/
theorem claim_C9_counterexample :
    parse_food_log_content c9docA = ([], ⟨0, 0, 0, 0⟩)
    ∧ ¬ (parse_food_log_content c9docA).2.calories = 250 :=
  ⟨by decide, by decide⟩

/-- C9 as amended: gram figures with fractional parts are recognized and
truncated (45.7 to 45, 95.9 to 95, not rounded), approximation markers and
thousands separators on calorie figures are stripped before parsing
(~1,850 to 1850), but calorie figures admit no fractional part: a
fractional calorie figure fails to match. -/
theorem claim_C9_truncation :
    parse_food_log_content c9docA = ([], ⟨0, 0, 0, 0⟩)
    ∧ parse_food_log_content c9docB =
        ([⟨"Lunch".data, "B".data, 300, 45, 0, 0⟩], ⟨300, 45, 0, 0⟩)
    ∧ parse_food_log_content c9docC =
        ([⟨"Snack".data, "C".data, 1850, 0, 0, 0⟩], ⟨1850, 0, 0, 0⟩)
    ∧ parse_food_log_content c9docD = ([], ⟨2000, 95, 0, 0⟩) :=
  ⟨by decide, by decide, by decide, by decide⟩

/-- C10 counterexample: the claim predicts the time label of a preamble
meal is always the preamble's leading word-sequence ("Morning"), but a
parenthesized clock time on the preamble's first line takes precedence, so
the Toast meal is labelled "7:15 AM". -/
theorem claim_C10_counterexample :
    (parse_food_log_content c10docA).1 =
      [⟨"7:15 AM".data, "Toast".data, 100, 0, 0, 0⟩]
    ∧ section_name_match c10docA = some "Morning ".data
    ∧ ¬ (parse_food_log_content c10docA).1 =
        [⟨pyStrip "Morning ".data, "Toast".data, 100, 0, 0, 0⟩] :=
  ⟨by decide, by decide, by decide⟩

/-- C10 as amended: meal bullets before the first level-2 heading are
parsed and included like any section's — the meal list always begins with
the preamble's scan — and the preamble's time label prefers a parenthesized
clock time on its first line, falling back to its leading word-sequence,
else the empty initial label; concretely, a preamble "Notes day" with a
Toast bullet contributes a meal labelled "Notes day" ahead of the heading
sections' meals. -/
theorem claim_C10_preamble :
    (∀ (content pre : List Char) (rest : List (List Char)),
      splitSections content = pre :: rest →
      (parse_food_log_content content).1 =
        scanLines (newTime [] pre) (splitNl pre) ++
          processSections (newTime [] pre) rest)
    ∧ (parse_food_log_content c10docB).1 =
        [⟨"Notes day".data, "Toast".data, 100, 0, 0, 0⟩,
         ⟨"Lunch".data, "Soup".data, 200, 0, 0, 0⟩] := by
  constructor
  · intro content pre rest h
    show processSections [] (splitSections content) = _
    rw [h]
    rfl
  · decide

/-- C10 witness: the decomposition applied to the Notes day document. -/
theorem claim_C10_witness :
    splitSections c10docB = [c10pre, c10sec]
    ∧ (parse_food_log_content c10docB).1 =
        scanLines (newTime [] c10pre) (splitNl c10pre) ++
          processSections (newTime [] c10pre) [c10sec] :=
  ⟨by decide, claim_C10_preamble.1 c10docB c10pre [c10sec] (by decide)⟩
